import Mathlib

/-!
Verification of the SQL query-builder / chart-builder / report-generator
repository against its natural-language specification.

The definitions below are a shallow embedding of the Python sources
`query_builder.py`, `chart_builder.py` and `report_generator.py`:

* Python strings are Lean `String`s; Python lists are Lean `List`s.
* A Python dict used as a finite mapping is an association list
  (`List (String × _)` with `List.lookup`, matching `dict.get` /
  `in`-membership on keys; the dicts built by the app have no duplicate
  keys).
* A fallible Python function (one that may raise) is embedded as an
  `Except`-valued function; a function that catches everything and
  returns `None` on failure is embedded as an `Option`-valued function.
* `pandas` cell values are the inductive `Val` (exact rationals stand in
  for Python numeric types; no claim depends on float rounding except
  via the explicitly modelled one-decimal formatting `fmt1`).
-/

namespace SQLRG

/-! ### Character-list string utilities

`String.startsWith`/substring search are re-implemented over `String.data`
so that proofs can proceed by structural induction on character lists. -/

/-- `charsStart kw l` is true when the character list `kw` is a prefix of `l`. -/
def charsStart : List Char → List Char → Bool
  | [], _ => true
  | _ :: _, [] => false
  | a :: as, b :: bs => a == b && charsStart as bs

/-- `startsKw kw s` is true when the string `s` starts with the keyword `kw`. -/
def startsKw (kw : String) (s : String) : Bool :=
  charsStart kw.data s.data

/-- `subAt kw l`: the character list `kw` occurs somewhere inside `l`. -/
def subAt : List Char → List Char → Bool
  | kw, [] => charsStart kw []
  | kw, h :: t => charsStart kw (h :: t) || subAt kw t

/-- `containsSub kw s`: the string `kw` occurs as a substring of `s`. -/
def containsSub (kw : String) (s : String) : Bool :=
  subAt kw.data s.data

theorem charsStart_append (kw r : List Char) : charsStart kw (kw ++ r) = true := by
  induction kw with
  | nil => rfl
  | cons a as ih => simp [charsStart, ih]

theorem startsKw_append (kw r : String) : startsKw kw (kw ++ r) = true := by
  unfold startsKw
  rw [String.data_append]
  exact charsStart_append kw.data r.data

/-- The single-quote character used by the SQL value quoting in
`_build_where_clause`. -/
def sq : String := String.singleton (Char.ofNat 39)

/-- `str.split(sep)` for a one-character separator (never returns `[]`,
like the Python method). -/
def splitOnChar (c : Char) : List Char → List (List Char)
  | [] => [[]]
  | h :: t =>
      match splitOnChar c t with
      | [] => [[h]]
      | g :: gs => if h == c then [] :: g :: gs else (h :: g) :: gs

/-- `str.lower()` (per-character, as for the ASCII function names the app
uses). -/
def strToLower (s : String) : String := ⟨s.data.map Char.toLower⟩

/-! ### `query_builder.py` — `VisualQueryBuilder` -/

/-- A Python value that can appear as a filter's `value` entry:
the app supplies either a string or a number. -/
inductive PyVal where
  | vstr (s : String)
  | vint (n : Int)
deriving DecidableEq

/-- `str(value)` as used when a filter value is interpolated unquoted. -/
def PyVal.render : PyVal → String
  | .vstr s => s
  | .vint n => toString n

/-- One entry of the `filters` list handed to `build_query`.
`none` fields model keys absent from the Python dict (`dict.get` → `None`). -/
structure FilterItem where
  column : Option String
  operator : Option String
  value : Option PyVal
deriving DecidableEq

/-- The only exception `build_query` can propagate: the `IndexError`
raised by `tables[0]` in `_build_from_clause` when `tables` is empty.
(No `ValidationError` class exists anywhere in the repository.) -/
inductive PyErr where
  | indexError (msg : String)
deriving DecidableEq

/-- Python truthiness of an optional string (`if column:`):
present and non-empty. -/
def truthyOpt : Option String → Bool
  | none => false
  | some s => !(s == "")

/-- `column.split('.')[-1]` — the column name without its table prefix.
(`str.split` never returns an empty list, so the default is unreachable.) -/
def lastComponent (column : String) : String :=
  ⟨(splitOnChar '.' column.data).getLastD []⟩

/-- `column.split('.')[0]` — the table prefix of a qualified column. -/
def tablePrefix (column : String) : String :=
  ⟨(splitOnChar '.' column.data).headD []⟩

/-- The per-column emission of `_build_select_columns`: an aggregated column
becomes `FUNC(column) AS func_colname`, any other column is passed through. -/
def select_item (aggregations : List (String × String)) (column : String) : String :=
  match aggregations.lookup column with
  | some agg_func =>
      agg_func ++ "(" ++ column ++ ") AS " ++ strToLower agg_func ++ "_" ++ lastComponent column
  | none => column

/-- `_build_select_columns`: the loop accumulating `select_items`, then
`",\n    ".join(select_items)`. -/
def build_select_columns (columns : List String) (aggregations : List (String × String)) : String :=
  String.intercalate ",\n    "
    (columns.foldl (fun select_items column => select_items ++ [select_item aggregations column]) [])

/-- `_build_from_clause` on a non-empty table list `main_table :: rest`:
one table is emitted bare, otherwise each further table is joined with the
`customer_id` heuristic or the generic `id` join. -/
def build_from_clause (main_table : String) (rest : List String) : String :=
  match rest with
  | [] => main_table
  | _ =>
      let joins := rest.map (fun table =>
        if containsSub "customer" table && containsSub "customer" main_table then
          "JOIN " ++ table ++ " ON " ++ main_table ++ ".customer_id = " ++ table ++ ".customer_id"
        else
          "JOIN " ++ table ++ " ON " ++ main_table ++ ".id = " ++ table ++ ".id")
      main_table ++ "\n" ++ String.intercalate "\n" joins

/-- The body of the `for filter_item in filters` loop in `_build_where_clause`:
an entry with a falsy `column` or a `None` value contributes no condition;
a string value is quoted only under `=`, `!=` or `LIKE`. -/
def renderFilter (filter_item : FilterItem) : Option String :=
  let operator := filter_item.operator.getD "="
  match filter_item.column, filter_item.value with
  | some column, some value =>
      if column = "" then none
      else
        match value with
        | .vstr s =>
            if operator = "=" || operator = "!=" || operator = "LIKE" then
              some (column ++ " " ++ operator ++ " " ++ sq ++ s ++ sq)
            else
              some (column ++ " " ++ operator ++ " " ++ s)
        | .vint _ => some (column ++ " " ++ operator ++ " " ++ value.render)
  | _, _ => none

/-- `_build_where_clause`: collect the rendered conditions, return the empty
string when none survive, else `WHERE` with `AND`-joined conditions. -/
def build_where_clause (filters : List FilterItem) : String :=
  let conditions := filters.filterMap renderFilter
  if conditions = [] then ""
  else "WHERE " ++ String.intercalate " AND " conditions

/-- The claim's wording of the per-column SELECT emission ("if it has an
aggregation, emit `FUNC(column) AS func_colname` (colname = unqualified
column name, func lowercase); otherwise emit the raw qualified column"),
to be compared with the source's `select_item`. -/
def select_item_spec (aggregations : List (String × String)) (column : String) : String :=
  match aggregations.lookup column with
  | some func =>
      func ++ "(" ++ column ++ ") AS " ++ strToLower func ++ "_" ++ lastComponent column
  | none => column

/-- A filter entry skipped by `_build_where_clause`: falsy (absent or
empty) column, or `None` value. -/
def skippedFilter (f : FilterItem) : Bool := !truthyOpt f.column || f.value.isNone

/-- `_build_group_by_clause`. -/
def build_group_by_clause (group_by : List String) : String :=
  if group_by = [] then ""
  else "GROUP BY " ++ String.intercalate ", " group_by

/-- The per-entry emission of `_build_order_by_clause`. -/
def order_item (aggregations : List (String × String)) (item : String) : String :=
  match aggregations.lookup item with
  | some agg_func => strToLower agg_func ++ "_" ++ lastComponent item ++ " DESC"
  | none => item ++ " ASC"

/-- `_build_order_by_clause`. -/
def build_order_by_clause (order_by : List String) (aggregations : List (String × String)) : String :=
  if order_by = [] then ""
  else "ORDER BY " ++ String.intercalate ", " (order_by.map (order_item aggregations))

/-- The `query_parts` list assembled by `build_query` for a non-empty table
list: `SELECT` and `FROM` always, then `WHERE`/`GROUP BY`/`ORDER BY` each
appended exactly when its clause string is non-empty.  (The Python guards
`if filters`/`if group_by`/`if order_by` before calling the clause builders
are redundant with the builders' own empty-input checks, so the composition
is the same.) -/
def query_parts (main_table : String) (rest : List String) (columns : List String)
    (group_by : List String) (aggregations : List (String × String))
    (filters : List FilterItem) (order_by : List String) : List String :=
  let where_clause := build_where_clause filters
  let group_clause := build_group_by_clause group_by
  let order_clause := build_order_by_clause order_by aggregations
  ["SELECT " ++ build_select_columns columns aggregations,
   "FROM " ++ build_from_clause main_table rest]
    ++ (if where_clause = "" then [] else [where_clause])
    ++ (if group_clause = "" then [] else [group_clause])
    ++ (if order_clause = "" then [] else [order_clause])

/-- `build_query`: on an empty table list the `tables[0]` indexing inside
`_build_from_clause` raises `IndexError`, which the `except` block re-raises;
otherwise the parts are joined with newlines and returned.  (The SELECT
clause, built first in the source, is total, so the error behaviour is
exactly that of the FROM clause.) -/
def build_query (tables : List String) (columns : List String)
    (group_by : List String) (aggregations : List (String × String))
    (filters : List FilterItem) (order_by : List String) : Except PyErr String :=
  match tables with
  | [] => .error (.indexError "list index out of range")
  | main_table :: rest =>
      .ok (String.intercalate "\n"
        (query_parts main_table rest columns group_by aggregations filters order_by))

/-- Result record of `validate_query_components`. -/
structure ValidationResult where
  is_valid : Bool
  errors : List String
  warnings : List String
deriving DecidableEq

/-- The warning message appended for a qualified column whose table prefix
is not among the selected tables. -/
def warnMsg (column : String) : String :=
  "Column " ++ column ++ " references table " ++ tablePrefix column ++ " which is not selected"

/-- Whether a column triggers the consistency warning: it is qualified
(`'.' in column`) and its prefix is absent from `tables`. -/
def warnTriggered (tables : List String) (column : String) : Bool :=
  column.data.contains '.' && !(tables.contains (tablePrefix column))

/-- `validate_query_components`: `is_valid` is cleared (and an error pushed)
for empty `tables` and for empty `columns`; the column loop then appends
warnings without touching `is_valid`. -/
def validate_query_components (tables : List String) (columns : List String) : ValidationResult :=
  let v0 : ValidationResult := ⟨true, [], []⟩
  let v1 : ValidationResult :=
    if tables = [] then
      ⟨false, v0.errors ++ ["At least one table must be selected"], v0.warnings⟩
    else v0
  let v2 : ValidationResult :=
    if columns = [] then
      ⟨false, v1.errors ++ ["At least one column must be selected"], v1.warnings⟩
    else v1
  ⟨v2.is_valid, v2.errors,
   columns.foldl (fun warnings column =>
     if warnTriggered tables column then warnings ++ [warnMsg column] else warnings) v2.warnings⟩

/-! ### `chart_builder.py` — `ChartBuilder`

A pandas `DataFrame` is embedded as a column-descriptor list plus rows of
cells.  Cell values are exact rationals, strings, or nulls; a column's
pandas dtype is carried on the descriptor (as `select_dtypes` is
dtype-driven, not value-driven). -/

/-- A cell value of a result table. -/
inductive Val where
  | num (q : ℚ)
  | str (s : String)
  | null
deriving DecidableEq

/-- The pandas dtype of a column, as used by `select_dtypes`. -/
inductive Dtype where
  | numeric
  | categorical
  | datetime
  | boolean
deriving DecidableEq

/-- A column descriptor. -/
structure DFCol where
  name : String
  dtype : Dtype
deriving DecidableEq

/-- A result table (`pandas.DataFrame`): ordered columns, ordered rows,
each row aligned positionally with `cols`. -/
structure DF where
  cols : List DFCol
  rows : List (List Val)
deriving DecidableEq

/-- `df.empty` — true when either axis has length 0. -/
def dfEmpty (df : DF) : Bool := df.rows.isEmpty || df.cols.isEmpty

/-- Position of a named column. -/
def colIdx (df : DF) (name : String) : Option Nat :=
  df.cols.findIdx? (fun c => c.name == name)

/-- The cells of a named column, top to bottom (empty for an unknown name;
only used behind a successful `colIdx`). -/
def colValsD (df : DF) (name : String) : List Val :=
  match colIdx df name with
  | some i => df.rows.map (fun r => r.getD i Val.null)
  | none => []

/-- First-occurrence de-duplication (distinct values / group keys; pandas
sorts group keys, but no claim below depends on their order). -/
def distinctKeep {α : Type} [DecidableEq α] (l : List α) : List α :=
  l.foldl (fun acc v => if v ∈ acc then acc else acc ++ [v]) []

/-- `Series.mean` on a numeric column. -/
def meanQ (l : List ℚ) : ℚ := l.sum / l.length

/-- The names of the numeric-dtype columns, in table order
(`df.select_dtypes(include=[np.number])`). -/
def numericColNames (df : DF) : List String :=
  (df.cols.filter (fun c => c.dtype == Dtype.numeric)).map (fun c => c.name)

/-- The `css_styles` constant (stylesheet text abbreviated; its content
decides no claim). -/
def css_styles : String := "<style>sql-report-generator stylesheet</style>"

/-- Names of categorical (`object` dtype) columns, in table order. -/
def categoricalColNames (df : DF) : List String :=
  (df.cols.filter (fun c => c.dtype == Dtype.categorical)).map (fun c => c.name)

/-- Names of datetime columns, in table order. -/
def datetimeColNames (df : DF) : List String :=
  (df.cols.filter (fun c => c.dtype == Dtype.datetime)).map (fun c => c.name)

/-- The numeric cells of a named column (pandas numeric ops skip NaN). -/
def colNums (df : DF) (name : String) : List ℚ :=
  (colValsD df name).filterMap (fun v => match v with | Val.num q => some q | _ => none)

/-- `df.isnull().sum().sum()` — the number of null cells. -/
def null_count (df : DF) : Nat :=
  (df.rows.map (fun r => r.countP (fun v => v == Val.null))).sum

/-- `len(df) * len(df.columns)` — the total cell count. -/
def total_cells (df : DF) : Nat := df.rows.length * df.cols.length

/-- Null cells of one named column. -/
def colNullCount (df : DF) (name : String) : Nat :=
  (colValsD df name).countP (fun v => v == Val.null)

/-- `Series.min` with `skipna` (0 on an all-null column, where pandas
would give NaN; no claim touches that case). -/
def listMinQ : List ℚ → ℚ
  | [] => 0
  | h :: t => t.foldl min h

/-- `Series.max` with `skipna`. -/
def listMaxQ : List ℚ → ℚ
  | [] => 0
  | h :: t => t.foldl max h

/-- Rendering of a cell into report HTML (`str(value)`; exact rationals
stand in for Python's float formatting). -/
def renderVal : Val → String
  | .num q => toString q
  | .str s => s
  | .null => "None"

/-- One-decimal formatting (`:.1f`), modelled as round-to-nearest on the
exact rational;  CPython formats the nearest binary double with half-even
ties, which agrees except on ties unrepresentable in binary anyway. -/
def fmt1 (q : ℚ) : String :=
  let n : Int := round (q * 10)
  toString (n / 10) ++ "." ++ toString (n % 10)

/-- Two-decimal formatting (`:.2f`), same modelling as `fmt1`. -/
def fmt2 (q : ℚ) : String :=
  let n : Int := round (q * 100)
  toString (n / 100) ++ "."
    ++ (if n % 100 < 10 then "0" ++ toString (n % 100) else toString (n % 100))

/-- `Series.mode().iloc[0]` rendered, with the `"N/A"` fallback (pandas
sorts equal-count modes; the tie-break order is not claim-relevant). -/
def modeStr (df : DF) (c : String) : String :=
  let vals := (colValsD df c).filter (fun v => !(v == Val.null))
  match distinctKeep vals with
  | [] => "N/A"
  | d :: ds =>
      renderVal (ds.foldl (fun best v =>
        if vals.countP (fun w => w == v) > vals.countP (fun w => w == best) then v else best) d)

/-- `_generate_insights`: row/column counts, stats for the first three
numeric columns, distinct/mode for the first two categorical columns, and
a missing-data summary (bullet glyphs abbreviated to plain text). -/
def generate_insights (df : DF) : String :=
  if dfEmpty df then "<p>No data available for analysis.</p>"
  else
    String.intercalate "<br>"
      (["Dataset contains " ++ toString df.rows.length ++ " records across "
          ++ toString df.cols.length ++ " columns"]
        ++ ((numericColNames df).take 3).map (fun n =>
            n ++ ": Average " ++ fmt2 (meanQ (colNums df n)) ++ ", Range "
              ++ fmt2 (listMinQ (colNums df n)) ++ " to " ++ fmt2 (listMaxQ (colNums df n)))
        ++ ((categoricalColNames df).take 2).map (fun c =>
            c ++ ": "
              ++ toString (distinctKeep ((colValsD df c).filter
                    (fun v => !(v == Val.null)))).length
              ++ " unique values, most common: " ++ sq ++ modeStr df c ++ sq)
        ++ [if null_count df > 0 then
              "Missing data found in "
                ++ toString ((df.cols.filter (fun c => colNullCount df c.name > 0)).length)
                ++ " columns"
            else "No missing data detected"])

/-- The summary-statistics record of `_generate_summary_stats`. -/
structure SummaryStats where
  total_records : Nat
  numeric_columns : Nat
  avg_values : ℚ
  data_completeness : ℚ
deriving DecidableEq

/-- `_generate_summary_stats`: when the numeric sub-frame is non-empty
(some rows and some numeric columns), the mean-of-column-means and the
filled-cell percentage; otherwise the degenerate record. -/
def generate_summary_stats (df : DF) : SummaryStats :=
  if !df.rows.isEmpty && !(numericColNames df).isEmpty then
    ⟨df.rows.length, (numericColNames df).length,
     meanQ ((numericColNames df).map (fun n => meanQ (colNums df n))),
     ((total_cells df : ℚ) - (null_count df : ℚ))
       / ((df.rows.length : ℚ) * (df.cols.length : ℚ)) * 100⟩
  else
    ⟨df.rows.length, 0, 0, 100⟩

/-- The `(key, label, format_spec)` triples of `_generate_metric_cards`. -/
def metric_specs : List (String × String × String) :=
  [("total_records", "Total Records", ":,"),
   ("numeric_columns", "Numeric Columns", ""),
   ("avg_values", "Average Value", ":.2f"),
   ("data_completeness", "Data Completeness", ":.1f%")]

/-- The stats-dict lookup (`stats[key]`; all four keys are always set). -/
def statValue (stats : SummaryStats) (key : String) : ℚ :=
  if key = "total_records" then (stats.total_records : ℚ)
  else if key = "numeric_columns" then (stats.numeric_columns : ℚ)
  else if key = "avg_values" then stats.avg_values
  else stats.data_completeness

/-- `format(value, spec)` for the specs in `metric_specs`: every non-empty
one begins with `:` (the source evidently meant the part after the colon),
which CPython's format-spec parser rejects with
`ValueError: Invalid format specifier` — so formatting is reached only to
raise.  An empty spec takes the `str(value)` branch instead. -/
def applyFormatSpec (spec : String) (v : ℚ) : Except String String :=
  if startsKw ":" spec then .error "Invalid format specifier"
  else .ok (toString v)

/-- The card-emitting loop of `_generate_metric_cards`, propagating the
first formatting exception. -/
def metric_cards_go (stats : SummaryStats) :
    List (String × String × String) → Except String (List String)
  | [] => .ok []
  | (key, label, spec) :: t =>
      match (if spec = "" then .ok (toString (statValue stats key))
             else applyFormatSpec spec (statValue stats key)) with
      | .error e => .error e
      | .ok value =>
          match metric_cards_go stats t with
          | .error e => .error e
          | .ok rest =>
              .ok (("<div class=\"metric-card\"><div class=\"value\">" ++ value
                ++ "</div><div class=\"label\">" ++ label ++ "</div></div>") :: rest)

/-- `_generate_metric_cards`. -/
def generate_metric_cards (stats : SummaryStats) : Except String String :=
  match metric_cards_go stats metric_specs with
  | .error e => .error e
  | .ok cards => .ok (String.intercalate "\n" cards)

/-- Wrapper for an embedded chart (`fig.to_html` output abstracted to a
placeholder naming the columns charted). -/
def chart_container (inner : String) : String :=
  "<div class=\"chart-container\"><plotly-figure>" ++ inner ++ "</plotly-figure></div>"

/-- `_generate_chart_section`: histogram of the first numeric column, bar
chart of the first numeric column grouped by the first categorical column,
each included only when its columns exist (the source's per-chart
`try`/`except pass`). -/
def generate_chart_section (df : DF) : String :=
  if dfEmpty df then ""
  else
    "<div class=\"section\"><h2>Visual Analysis</h2>"
      ++ (match numericColNames df with
          | [] => ""
          | n :: _ => chart_container ("Distribution of " ++ n))
      ++ (match categoricalColNames df, numericColNames df with
          | c :: _, n :: _ => chart_container (n ++ " by " ++ c)
          | _, _ => "")
      ++ "</div>"

/-- `_generate_comprehensive_charts`: histogram, bar, scatter, box — each
included only when its columns exist. -/
def generate_comprehensive_charts (df : DF) : String :=
  if dfEmpty df then ""
  else
    "<div class=\"section\"><h2>Comprehensive Visual Analysis</h2>"
      ++ (match numericColNames df with
          | [] => ""
          | n :: _ => chart_container ("Distribution Analysis: " ++ n))
      ++ (match categoricalColNames df, numericColNames df with
          | c :: _, n :: _ => chart_container ("Category Comparison: " ++ n ++ " by " ++ c)
          | _, _ => "")
      ++ (match numericColNames df with
          | n1 :: n2 :: _ => chart_container ("Correlation Analysis: " ++ n1 ++ " vs " ++ n2)
          | _ => "")
      ++ (match numericColNames df with
          | [] => ""
          | n :: _ => chart_container ("Statistical Distribution: " ++ n))
      ++ "</div>"

/-- One rendered preview row. -/
def render_row (r : List Val) : String :=
  "<tr>" ++ String.intercalate "" (r.map (fun v => "<td>" ++ renderVal v ++ "</td>")) ++ "</tr>"

/-- `_generate_data_preview`: the first `max_rows` rows as an HTML table,
with the truncation note when rows were cut. -/
def generate_data_preview (df : DF) (max_rows : Nat) : String :=
  if dfEmpty df then "<p>No data to display.</p>"
  else
    "<table class=\"data-table\"><tr>"
      ++ String.intercalate "" (df.cols.map (fun c => "<th>" ++ c.name ++ "</th>")) ++ "</tr>"
      ++ String.intercalate "" ((df.rows.take max_rows).map render_row) ++ "</table>"
      ++ (if df.rows.length > max_rows then
            "<p><em>Showing first " ++ toString max_rows ++ " of "
              ++ toString df.rows.length ++ " total records</em></p>"
          else "")

/-- `_generate_recommendations`: the fixed rule list, with the generic
fallback when no rule fired. -/
def generate_recommendations (df : DF) : String :=
  if dfEmpty df then "<p>No recommendations available for empty dataset.</p>"
  else
    let recs :=
      (if null_count df > 0 then
        [("Data Quality Improvement",
          "Consider addressing missing data in "
            ++ toString ((df.cols.filter (fun c => colNullCount df c.name > 0)).length)
            ++ " columns to improve analysis accuracy.")]
       else [])
      ++ (if df.rows.length > 10000 then
            [("Performance Optimization",
              "Large dataset detected. Consider using data sampling or aggregation for faster analysis.")]
          else [])
      ++ (if (numericColNames df).length ≥ 2 then
            [("Advanced Analysis",
              "Multiple numeric columns detected. Consider correlation analysis and predictive modeling.")]
          else [])
    let recs :=
      if recs = [] then
        [("Data Exploration",
          "Explore different visualization types and statistical analyses to uncover hidden patterns.")]
      else recs
    String.intercalate "\n" (recs.map (fun r =>
      "<div class=\"recommendation\"><h5>" ++ r.1 ++ "</h5><p>" ++ r.2 ++ "</p></div>"))

/-- A `describe()`-style numeric table (count/mean/min/max; std and
quartiles involve irrational square roots / interpolation and decide no
claim). -/
def describe_table (df : DF) : String :=
  "<table class=\"data-table\">"
    ++ String.intercalate "" ((numericColNames df).map (fun n =>
        "<tr><td>" ++ n ++ "</td><td>" ++ toString (colNums df n).length ++ "</td><td>"
          ++ fmt2 (meanQ (colNums df n)) ++ "</td><td>" ++ fmt2 (listMinQ (colNums df n))
          ++ "</td><td>" ++ fmt2 (listMaxQ (colNums df n)) ++ "</td></tr>"))
    ++ "</table>"

/-- The categorical-frequency table of `_generate_detailed_statistics`. -/
def categorical_stats_table (df : DF) : String :=
  "<table class=\"data-table\">"
    ++ String.intercalate "" ((categoricalColNames df).map (fun c =>
        "<tr><td>" ++ c ++ "</td><td>"
          ++ toString (distinctKeep ((colValsD df c).filter
                (fun v => !(v == Val.null)))).length
          ++ "</td><td>" ++ modeStr df c ++ "</td><td>" ++ toString (colNullCount df c)
          ++ "</td></tr>"))
    ++ "</table>"

/-- `_generate_detailed_statistics`. -/
def generate_detailed_statistics (df : DF) : String :=
  if dfEmpty df then ""
  else
    "<div class=\"section\"><h2>Detailed Statistics</h2>"
      ++ (if (numericColNames df).isEmpty then ""
          else "<h3>Numeric Columns Analysis</h3>" ++ describe_table df)
      ++ (if (categoricalColNames df).isEmpty then ""
          else "<h3>Categorical Columns Analysis</h3>" ++ categorical_stats_table df)
      ++ "</div>"

/-- `_generate_dataset_overview`: column count per dtype. -/
def generate_dataset_overview (df : DF) : String :=
  "<h3>Column Types</h3><div class=\"summary-stats\">"
    ++ String.intercalate "" ((distinctKeep (df.cols.map (fun c => c.dtype))).map (fun d =>
        "<div class=\"stat-item\"><div class=\"number\">"
          ++ toString ((df.cols.filter (fun c => c.dtype == d)).length)
          ++ "</div><div class=\"description\">columns</div></div>"))
    ++ "</div>"

/-- `missing_percentage` of `_generate_data_quality_section`. -/
def missing_percentage (df : DF) : ℚ :=
  ((null_count df : ℚ) / (total_cells df : ℚ)) * 100

/-- The missing-columns table of the quality section, in column order. -/
def missing_cols_table (df : DF) : String :=
  "<h3>Columns with Missing Data</h3><table class=\"data-table\">"
    ++ String.intercalate "" ((df.cols.filter (fun c => colNullCount df c.name > 0)).map
        (fun c =>
          "<tr><td>" ++ c.name ++ "</td><td>" ++ toString (colNullCount df c.name)
            ++ "</td><td>"
            ++ fmt2 ((colNullCount df c.name : ℚ) / (df.rows.length : ℚ) * 100)
            ++ "</td></tr>"))
    ++ "</table>"

/-- The literal prefix of the quality section, up to the completeness
figure. -/
def data_quality_head : String :=
  "<div class=\"insights-box\"><h4>Data Completeness</h4><p>Overall data completeness: "

/-- Everything of the quality section after the completeness figure. -/
def data_quality_rest (df : DF) : String :=
  "%</p><p>Missing values: " ++ toString (null_count df) ++ " out of "
    ++ toString (total_cells df) ++ " total cells</p></div>"
    ++ (if null_count df > 0 then missing_cols_table df else "")

/-- `_generate_data_quality_section`: the displayed completeness is
`100 - missing_percentage` to one decimal place. -/
def data_quality_section (df : DF) : String :=
  data_quality_head ++ fmt1 (100 - missing_percentage df) ++ data_quality_rest df

/-- `_get_date_range` (strftime date rendering abstracted to the rational
day values carried by datetime cells). -/
def date_range_str (df : DF) : String :=
  match datetimeColNames df with
  | [] => "No date columns detected"
  | c :: _ =>
      toString (listMinQ (colNums df c)) ++ " to " ++ toString (listMaxQ (colNums df c))

/-- `_generate_trend_analysis`. -/
def generate_trend_analysis (df : DF) (date_col : String) : String :=
  "<div class=\"insights-box\"><h4>Temporal Analysis Results</h4><p>Analysis period: "
    ++ date_range_str df ++ "</p><p>Total data points: " ++ toString df.rows.length
    ++ "</p><p>Time span: "
    ++ toString (listMaxQ (colNums df date_col) - listMinQ (colNums df date_col))
    ++ " days</p></div>"

/-- `_generate_period_summary`. -/
def generate_period_summary (df : DF) : String :=
  match datetimeColNames df with
  | [] => "<p>No date columns available for period analysis.</p>"
  | _ =>
      "<div class=\"summary-stats\"><div class=\"stat-item\"><div class=\"number\">"
        ++ toString df.rows.length
        ++ "</div><div class=\"description\">Total Records</div></div></div>"

/-- The shared document skeleton of the three templates (doctype, head
with title and stylesheet, header, body, container). -/
def report_shell (title subtitle body : String) : String :=
  "<!DOCTYPE html><html><head><title>" ++ title ++ "</title>" ++ css_styles
    ++ "</head><body><div class=\"report-container\"><div class=\"header\"><h1>" ++ title
    ++ "</h1><div class=\"subtitle\">" ++ subtitle ++ "</div></div>" ++ body
    ++ "</div></body></html>"

/-- `_executive_summary_template` — the metric-card formatting raises (see
`applyFormatSpec`), which propagates out of the template's f-string. -/
def executive_summary_template (now : String) (df : DF) (title : String)
    (include_charts include_statistics : Bool) : Except String String :=
  let insights := generate_insights df
  let stats := generate_summary_stats df
  let charts_html := if include_charts && !(dfEmpty df) then generate_chart_section df else ""
  match generate_metric_cards stats with
  | .error e => .error e
  | .ok cards =>
      .ok (report_shell title "Executive Summary Report"
        ("<div class=\"meta-info\">Report Generated: " ++ now ++ "<br>Data Points: "
            ++ toString df.rows.length ++ " records<br>Columns Analyzed: "
            ++ toString df.cols.length ++ "<br>Report Type: Executive Summary</div>"
          ++ "<div class=\"section\"><h2>Key Metrics</h2><div class=\"metric-grid\">"
          ++ cards ++ "</div></div>"
          ++ "<div class=\"section\"><h2>Key Insights</h2><div class=\"insights-box\"><h4>Automated Analysis Results:</h4>"
          ++ insights ++ "</div></div>"
          ++ charts_html
          ++ "<div class=\"section\"><h2>Data Summary</h2>" ++ generate_data_preview df 10
          ++ "</div>"
          ++ "<div class=\"section\"><h2>Recommendations</h2>" ++ generate_recommendations df
          ++ "</div>"
          ++ "<div class=\"footer\"><p>This report was automatically generated by SQL Report Generator</p></div>"))

/-- `_detailed_analysis_template`. -/
def detailed_analysis_template (now : String) (df : DF) (title : String)
    (include_charts include_statistics : Bool) : Except String String :=
  let detailed_stats := if include_statistics then generate_detailed_statistics df else ""
  let charts_html :=
    if include_charts && !(dfEmpty df) then generate_comprehensive_charts df else ""
  .ok (report_shell title "Detailed Analysis Report"
    ("<div class=\"meta-info\">Report Generated: " ++ now ++ "<br>Dataset Size: "
        ++ toString df.rows.length ++ " rows x " ++ toString df.cols.length
        ++ " columns<br>Analysis Scope: Complete dataset analysis</div>"
      ++ "<div class=\"section\"><h2>Dataset Overview</h2>" ++ generate_dataset_overview df
      ++ "</div>"
      ++ detailed_stats
      ++ "<div class=\"section\"><h2>Complete Data View</h2>" ++ generate_data_preview df 50
      ++ "</div>"
      ++ charts_html
      ++ "<div class=\"section\"><h2>Data Quality Assessment</h2>" ++ data_quality_section df
      ++ "</div>"
      ++ "<div class=\"footer\"><p>This detailed analysis was generated by SQL Report Generator</p></div>"))

/-- `_trend_report_template` (`_generate_trend_charts` delegates to the
executive chart section). -/
def trend_report_template (now : String) (df : DF) (title : String)
    (include_charts include_statistics : Bool) : Except String String :=
  let trend_analysis :=
    match datetimeColNames df with
    | [] => "<p>No time-based columns detected for trend analysis.</p>"
    | c :: _ => generate_trend_analysis df c
  let charts_html := if include_charts && !(dfEmpty df) then generate_chart_section df else ""
  .ok (report_shell title "Trend Analysis Report"
    ("<div class=\"meta-info\">Report Generated: " ++ now ++ "<br>Analysis Period: "
        ++ date_range_str df ++ "<br>Data Points: " ++ toString df.rows.length
        ++ " records<br>Focus: Temporal patterns and trends</div>"
      ++ "<div class=\"section\"><h2>Trend Analysis</h2>" ++ trend_analysis ++ "</div>"
      ++ charts_html
      ++ "<div class=\"section\"><h2>Period Summary</h2>" ++ generate_period_summary df
      ++ "</div>"
      ++ "<div class=\"footer\"><p>This trend analysis was generated by SQL Report Generator</p></div>"))

/-- `report_type.lower().replace(' ', '_')` (per-character; `lower` leaves
the spaces that `replace` then maps to underscores). -/
def normalize_report_type (report_type : String) : String :=
  ⟨report_type.data.map (fun c => if c = ' ' then '_' else c.toLower)⟩

/-- The `report_templates` dict. -/
def report_templates :
    List (String × (String → DF → String → Bool → Bool → Except String String)) :=
  [("executive_summary", executive_summary_template),
   ("detailed_analysis", detailed_analysis_template),
   ("trend_report", trend_report_template)]

/-- The `try` body of `generate_report`: dict lookup with the
detailed-analysis default, then the template call. -/
def run_report_template (now : String) (df : DF) (title report_type : String)
    (include_charts include_statistics : Bool) : Except String String :=
  let template_func :=
    (report_templates.lookup (normalize_report_type report_type)).getD
      detailed_analysis_template
  template_func now df title include_charts include_statistics

/-- The fixed error-report text before the embedded message. -/
def error_report_head : String :=
  "<!DOCTYPE html><html><head><title>Report Generation Error</title>" ++ css_styles
    ++ "</head><body><div class=\"report-container\"><div class=\"header\"><h1>Report Generation Error</h1></div><div class=\"section\"><p>An error occurred while generating the report:</p><pre>"

/-- The fixed error-report text after the embedded message. -/
def error_report_tail : String := "</pre></div></div></body></html>"

/-- `_error_report`. -/
def error_report (error_message : String) : String :=
  error_report_head ++ error_message ++ error_report_tail

/-- `generate_report`: the `except` clause turns any internal exception
into the error-report document, so a string is always returned. -/
def generate_report (now : String) (df : DF) (title report_type : String)
    (include_charts include_statistics : Bool) : String :=
  match run_report_template now df title report_type include_charts include_statistics with
  | .ok report_html => report_html
  | .error e => error_report e


/-! ## Helper lemmas -/

theorem foldl_append_singleton {α β : Type} (g : α → β) (l : List α) (acc : List β) :
    l.foldl (fun acc a => acc ++ [g a]) acc = acc ++ l.map g := by
  induction l generalizing acc with
  | nil => simp
  | cons h t ih => simp [ih]

theorem foldl_guard_append {α β : Type} (p : α → Bool) (g : α → β) (l : List α) (acc : List β) :
    l.foldl (fun acc a => if p a then acc ++ [g a] else acc) acc
      = acc ++ (l.filter p).map g := by
  induction l generalizing acc with
  | nil => simp
  | cons h t ih => cases hp : p h <;> simp [hp, ih]

theorem append_lit_ne_empty (a x : String) (h : a.data ≠ []) : ¬(a ++ x = "") := by
  intro hEq
  apply h
  have h2 := congrArg String.data hEq
  rw [String.data_append] at h2
  exact (List.append_eq_nil.mp h2).1

theorem kw_select_self (s : String) : startsKw "SELECT" ("SELECT " ++ s) = true := rfl

theorem kw_select_from (s : String) : startsKw "SELECT" ("FROM " ++ s) = false := rfl

theorem kw_select_where (s : String) : startsKw "SELECT" ("WHERE " ++ s) = false := rfl

theorem kw_select_group (s : String) : startsKw "SELECT" ("GROUP BY " ++ s) = false := rfl

theorem kw_select_order (s : String) : startsKw "SELECT" ("ORDER BY " ++ s) = false := rfl

theorem kw_from_select (s : String) : startsKw "FROM" ("SELECT " ++ s) = false := rfl

theorem kw_from_self (s : String) : startsKw "FROM" ("FROM " ++ s) = true := rfl

theorem kw_from_where (s : String) : startsKw "FROM" ("WHERE " ++ s) = false := rfl

theorem kw_from_group (s : String) : startsKw "FROM" ("GROUP BY " ++ s) = false := rfl

theorem kw_from_order (s : String) : startsKw "FROM" ("ORDER BY " ++ s) = false := rfl

theorem kw_where_select (s : String) : startsKw "WHERE" ("SELECT " ++ s) = false := rfl

theorem kw_where_from (s : String) : startsKw "WHERE" ("FROM " ++ s) = false := rfl

theorem kw_where_self (s : String) : startsKw "WHERE" ("WHERE " ++ s) = true := rfl

theorem kw_where_group (s : String) : startsKw "WHERE" ("GROUP BY " ++ s) = false := rfl

theorem kw_where_order (s : String) : startsKw "WHERE" ("ORDER BY " ++ s) = false := rfl

theorem kw_group_select (s : String) : startsKw "GROUP BY" ("SELECT " ++ s) = false := rfl

theorem kw_group_from (s : String) : startsKw "GROUP BY" ("FROM " ++ s) = false := rfl

theorem kw_group_where (s : String) : startsKw "GROUP BY" ("WHERE " ++ s) = false := rfl

theorem kw_group_self (s : String) : startsKw "GROUP BY" ("GROUP BY " ++ s) = true := rfl

theorem kw_group_order (s : String) : startsKw "GROUP BY" ("ORDER BY " ++ s) = false := rfl

theorem kw_order_select (s : String) : startsKw "ORDER BY" ("SELECT " ++ s) = false := rfl

theorem kw_order_from (s : String) : startsKw "ORDER BY" ("FROM " ++ s) = false := rfl

theorem kw_order_where (s : String) : startsKw "ORDER BY" ("WHERE " ++ s) = false := rfl

theorem kw_order_group (s : String) : startsKw "ORDER BY" ("GROUP BY " ++ s) = false := rfl

theorem kw_order_self (s : String) : startsKw "ORDER BY" ("ORDER BY " ++ s) = true := rfl

/-- C1 (counterexample): with non-empty `tables` and *empty* `columns`,
`build_query` does not fail at all — it returns the (malformed) query
`SELECT \nFROM water_meter_readings` — contradicting the claim that every
such selection fails with a `ValidationError`. -/
theorem build_query_empty_columns_succeeds :
    build_query ["water_meter_readings"] [] [] [] [] []
      = .ok "SELECT \nFROM water_meter_readings" := rfl

/-- C1 (amended): `build_query` raises iff `tables` is empty, and the
exception is the `IndexError` from `tables[0]` in `_build_from_clause`,
not a `ValidationError` (no such class exists in the repository); with
non-empty `tables` it always returns a query string, even for empty
`columns`. -/
theorem build_query_error_iff_empty_tables (tables columns group_by : List String)
    (aggregations : List (String × String)) (filters : List FilterItem)
    (order_by : List String) :
    (build_query tables columns group_by aggregations filters order_by
        = .error (.indexError "list index out of range") ↔ tables = []) ∧
    (tables ≠ [] → ∃ q, build_query tables columns group_by aggregations filters order_by
        = .ok q) := by
  cases tables <;> simp [build_query]

/-- C1 (witness): a non-empty table list builds successfully. -/
theorem build_query_error_iff_empty_tables_witness :
    (["t"] : List String) ≠ [] ∧
    ∃ q, build_query ["t"] ["c"] [] [] [] [] = .ok q :=
  ⟨by decide,
   (build_query_error_iff_empty_tables ["t"] ["c"] [] [] [] []).2 (by decide)⟩

/-- C3 (counterexample): a selection with non-empty `filters` (one entry
with no column and no value) yields a query containing no `WHERE` clause
— indeed no `W` at all — contradicting "WHERE appears iff the filters
list is non-empty". -/
theorem where_absent_for_nonempty_filters :
    build_query ["t"] ["c"] [] [] [⟨none, none, none⟩] [] = .ok "SELECT c\nFROM t" ∧
    ([(⟨none, none, none⟩ : FilterItem)] ≠ []) ∧
    containsSub "WHERE" "SELECT c\nFROM t" = false := by
  refine ⟨rfl, by decide, by decide⟩

/-- C3 (amended): for non-empty `tables`, the built query is the
newline-join of its `query_parts`, among which exactly one part carries
the `SELECT` keyword and exactly one the `FROM` keyword; a `WHERE` part
appears iff some filter survives rendering (non-falsy column and
non-`None` value — not merely iff `filters` is non-empty), and `GROUP BY`
/ `ORDER BY` parts appear iff their input lists are non-empty. -/
theorem built_query_clause_structure (main_table : String)
    (rest columns group_by : List String) (aggregations : List (String × String))
    (filters : List FilterItem) (order_by : List String) (hc : columns ≠ []) :
    (build_query (main_table :: rest) columns group_by aggregations filters order_by
        = .ok (String.intercalate "\n"
            (query_parts main_table rest columns group_by aggregations filters order_by))) ∧
    ((query_parts main_table rest columns group_by aggregations filters order_by).countP
        (startsKw "SELECT") = 1) ∧
    ((query_parts main_table rest columns group_by aggregations filters order_by).countP
        (startsKw "FROM") = 1) ∧
    ((query_parts main_table rest columns group_by aggregations filters order_by).any
        (startsKw "WHERE") = true ↔ filters.filterMap renderFilter ≠ []) ∧
    ((query_parts main_table rest columns group_by aggregations filters order_by).any
        (startsKw "GROUP BY") = true ↔ group_by ≠ []) ∧
    ((query_parts main_table rest columns group_by aggregations filters order_by).any
        (startsKw "ORDER BY") = true ↔ order_by ≠ []) := by
  refine ⟨rfl, ?_, ?_, ?_, ?_, ?_⟩ <;>
  · rcases hf : filters.filterMap renderFilter with _ | ⟨c, cs⟩ <;>
    rcases hg : group_by with _ | ⟨g, gs⟩ <;>
    rcases ho : order_by with _ | ⟨o, os⟩ <;>
    simp [query_parts, build_where_clause, build_group_by_clause, build_order_by_clause, hf,
      append_lit_ne_empty "WHERE " _ (by decide), append_lit_ne_empty "GROUP BY " _ (by decide),
      append_lit_ne_empty "ORDER BY " _ (by decide),
      List.countP_append, List.countP_cons, List.any_append, List.any_cons,
      kw_select_self, kw_select_from, kw_select_where, kw_select_group, kw_select_order,
      kw_from_select, kw_from_self, kw_from_where, kw_from_group, kw_from_order,
      kw_where_select, kw_where_from, kw_where_self, kw_where_group, kw_where_order,
      kw_group_select, kw_group_from, kw_group_where, kw_group_self, kw_group_order,
      kw_order_select, kw_order_from, kw_order_where, kw_order_group, kw_order_self]

/-- C3 (witness): the structure theorem applied to a one-table,
one-column, one-group selection. -/
theorem built_query_clause_structure_witness :
    (["c"] : List String) ≠ [] ∧
    (query_parts "t" [] ["c"] ["c"] [] [] []).countP (startsKw "SELECT") = 1 :=
  ⟨by decide, (built_query_clause_structure "t" [] ["c"] ["c"] [] [] [] (by decide)).2.1⟩

/-- C4: `generate_report` always returns a document string to its caller —
either the template's output, or, when the template raised internally,
exactly the error-report document, which is the fixed well-formed HTML
(doctype in its head, closing `</html>` in its tail) with the failure
message embedded between them. -/
theorem generate_report_always_returns_document (now : String) (df : DF)
    (title report_type : String) (include_charts include_statistics : Bool) :
    ((∃ doc, run_report_template now df title report_type include_charts include_statistics
          = .ok doc ∧
        generate_report now df title report_type include_charts include_statistics = doc) ∨
     (∃ e, run_report_template now df title report_type include_charts include_statistics
          = .error e ∧
        generate_report now df title report_type include_charts include_statistics
          = error_report e)) ∧
    (∀ e, error_report e = error_report_head ++ e ++ error_report_tail) ∧
    containsSub "<!DOCTYPE html>" error_report_head = true ∧
    containsSub "</html>" error_report_tail = true := by
  refine ⟨?_, fun e => rfl, by decide, by decide⟩
  cases h : run_report_template now df title report_type include_charts include_statistics with
  | ok doc => exact Or.inl ⟨doc, rfl, by simp [generate_report, h]⟩
  | error e => exact Or.inr ⟨e, rfl, by simp [generate_report, h]⟩

/-- C5: `validate_query_components` clears `is_valid` exactly for empty
`tables` or empty `columns` (with the corresponding error messages, in
order), and its warnings are exactly one per qualified column whose table
prefix is absent from `tables` — warnings alone never clear `is_valid`. -/
theorem validate_components_spec (tables columns : List String) :
    ((validate_query_components tables columns).is_valid = false
        ↔ tables = [] ∨ columns = []) ∧
    (validate_query_components tables columns).warnings
      = (columns.filter (warnTriggered tables)).map warnMsg ∧
    (validate_query_components tables columns).errors
      = (if tables = [] then ["At least one table must be selected"] else [])
        ++ (if columns = [] then ["At least one column must be selected"] else []) := by
  unfold validate_query_components
  by_cases ht : tables = [] <;> by_cases hcn : columns = [] <;>
    simp [ht, hcn, foldl_guard_append]

/-- C6: the SELECT clause emits, for each column in order, the
claim-specified item — `FUNC(column) AS func_colname` for an aggregated
column, the raw reference otherwise — and in particular
`readings.usage_gallons` aggregated with `SUM` gets the alias
`sum_usage_gallons`. -/
theorem select_clause_formatting :
    (∀ columns aggregations, build_select_columns columns aggregations
        = String.intercalate ",\n    " (columns.map (select_item_spec aggregations))) ∧
    build_query ["readings"] ["readings.usage_gallons"] []
        [("readings.usage_gallons", "SUM")] [] []
      = .ok "SELECT SUM(readings.usage_gallons) AS sum_usage_gallons\nFROM readings" ∧
    build_query ["t"] ["t.a", "t.b"] [] [("t.b", "AVG")] [] []
      = .ok "SELECT t.a,\n    AVG(t.b) AS avg_b\nFROM t" := by
  refine ⟨?_, rfl, rfl⟩
  intro columns aggregations
  unfold build_select_columns
  rw [foldl_append_singleton]
  rfl

/-- C8: a report type whose normalization is not a key of
`report_templates` is dispatched to the detailed-analysis template, the
call completes without error, and the document equals the one produced
for the `detailed_analysis` type on the same inputs (same clock). -/
theorem unknown_report_type_uses_detailed (now : String) (df : DF)
    (title report_type : String) (include_charts include_statistics : Bool)
    (h : report_templates.lookup (normalize_report_type report_type) = none) :
    generate_report now df title report_type include_charts include_statistics
      = generate_report now df title "detailed_analysis" include_charts include_statistics ∧
    ∃ doc, run_report_template now df title report_type include_charts include_statistics
        = .ok doc := by
  have h2 : run_report_template now df title report_type include_charts include_statistics
      = detailed_analysis_template now df title include_charts include_statistics := by
    simp [run_report_template, h]
  have h3 : run_report_template now df title "detailed_analysis" include_charts
        include_statistics
      = detailed_analysis_template now df title include_charts include_statistics := rfl
  constructor
  · simp [generate_report, h2, h3]
  · rw [h2]
    exact ⟨_, rfl⟩

/-- C8 (witness): `"Custom Report"` normalizes to `custom_report`, which
is not a template key. -/
theorem unknown_report_type_uses_detailed_witness :
    report_templates.lookup (normalize_report_type "Custom Report") = none ∧
    generate_report "2026-10-12" ⟨[⟨"a", .numeric⟩], [[.num 1]]⟩ "T" "Custom Report" true true
      = generate_report "2026-10-12" ⟨[⟨"a", .numeric⟩], [[.num 1]]⟩ "T" "detailed_analysis"
          true true :=
  ⟨rfl,
   (unknown_report_type_uses_detailed "2026-10-12" ⟨[⟨"a", .numeric⟩], [[.num 1]]⟩ "T"
      "Custom Report" true true rfl).1⟩

/-- C9: for a table with at least one cell, the quality section's
completeness value equals `100 * (1 - M / (R*C))` exactly, and the section
embeds that value formatted to one decimal place. -/
theorem data_completeness_one_decimal (df : DF) (h : 0 < total_cells df) :
    100 - missing_percentage df
      = 100 * (1 - (null_count df : ℚ) / ((df.rows.length : ℚ) * (df.cols.length : ℚ))) ∧
    data_quality_section df
      = data_quality_head
        ++ fmt1 (100 * (1 - (null_count df : ℚ)
              / ((df.rows.length : ℚ) * (df.cols.length : ℚ))))
        ++ data_quality_rest df := by
  have h1 : 100 - missing_percentage df
      = 100 * (1 - (null_count df : ℚ) / ((df.rows.length : ℚ) * (df.cols.length : ℚ))) := by
    have hT : ((df.rows.length : ℚ) * (df.cols.length : ℚ)) ≠ 0 := by
      unfold total_cells at h
      exact_mod_cast Nat.cast_ne_zero.mpr (Nat.pos_iff_ne_zero.mp h)
    unfold missing_percentage total_cells
    push_cast
    field_simp
    ring
  exact ⟨h1, by rw [data_quality_section, ← h1]⟩

/-- C9 (witness): one numeric column, two rows, one null — two cells. -/
theorem data_completeness_one_decimal_witness :
    0 < total_cells ⟨[⟨"a", .numeric⟩], [[.num 1], [.null]]⟩ ∧
    100 - missing_percentage ⟨[⟨"a", .numeric⟩], [[.num 1], [.null]]⟩
      = 100 * (1 - (null_count ⟨[⟨"a", .numeric⟩], [[.num 1], [.null]]⟩ : ℚ)
          / (((⟨[⟨"a", .numeric⟩], [[.num 1], [.null]]⟩ : DF).rows.length : ℚ)
            * (((⟨[⟨"a", .numeric⟩], [[.num 1], [.null]]⟩ : DF).cols.length : ℚ)))) :=
  ⟨by decide,
   (data_completeness_one_decimal ⟨[⟨"a", .numeric⟩], [[.num 1], [.null]]⟩ (by decide)).1⟩

/-- C10: every filter with a falsy/absent column or a `None` value renders
to nothing; when all supplied filters are skipped this way, the WHERE
clause is the empty string and no query part carries the `WHERE` keyword,
while the build itself still succeeds. -/
theorem where_clause_skips_invalid_filters (main_table : String)
    (rest columns group_by : List String) (aggregations : List (String × String))
    (filters : List FilterItem) (order_by : List String)
    (h : ∀ f ∈ filters, skippedFilter f = true) :
    (∀ f ∈ filters, renderFilter f = none) ∧
    build_where_clause filters = "" ∧
    (∀ p ∈ query_parts main_table rest columns group_by aggregations filters order_by,
        startsKw "WHERE" p = false) ∧
    ∃ q, build_query (main_table :: rest) columns group_by aggregations filters order_by
        = .ok q := by
  have hr : ∀ f ∈ filters, renderFilter f = none := by
    intro f hf
    have hs := h f hf
    rcases f with ⟨col, op, v⟩
    rcases col with _ | c <;> rcases v with _ | v <;>
      simp_all [renderFilter, skippedFilter, truthyOpt]
  have hnil : filters.filterMap renderFilter = [] := by
    simp [List.filterMap_eq_nil_iff]
    exact hr
  refine ⟨hr, by simp [build_where_clause, hnil], ?_, ⟨_, rfl⟩⟩
  rcases hg : group_by with _ | ⟨g, gs⟩ <;>
  rcases ho : order_by with _ | ⟨o, os⟩ <;>
  simp [query_parts, build_where_clause, build_group_by_clause, build_order_by_clause, hnil,
    append_lit_ne_empty "GROUP BY " _ (by decide), append_lit_ne_empty "ORDER BY " _ (by decide),
    kw_where_select, kw_where_from, kw_where_group, kw_where_order]

/-- C10 (witness): three filters — missing column, empty column, `None`
value — are all skipped and the WHERE clause vanishes. -/
theorem where_clause_skips_invalid_filters_witness :
    (∀ f ∈ [(⟨none, some "=", some (.vint 1)⟩ : FilterItem),
        ⟨some "", none, some (.vstr "x")⟩, ⟨some "c", none, none⟩],
      skippedFilter f = true) ∧
    build_where_clause [⟨none, some "=", some (.vint 1)⟩, ⟨some "", none, some (.vstr "x")⟩,
        ⟨some "c", none, none⟩] = "" :=
  ⟨by decide,
   (where_clause_skips_invalid_filters "t" [] ["c"] [] []
      [⟨none, some "=", some (.vint 1)⟩, ⟨some "", none, some (.vstr "x")⟩,
       ⟨some "c", none, none⟩] [] (by decide)).2.1⟩

end SQLRG
